import Mathlib

/-!
Shallow embedding of the `dermatopathology_scheduler` repository
(`src/data_models.py`, `src/constraints.py`, `src/scheduler.py`, `src/utils.py`).

Python `float` values are modelled as exact rationals (`ℚ`); Python's
built-in `round` (banker's rounding, half to even) is modelled by `pyRound`,
and Python's `int(...)` truncation by `pyIntTrunc`.  Python `datetime.date`
values are modelled by `PyDate` (year/month/day), `strftime('%Y-%m-%d')` by
`PyDate.iso`, and `date.weekday()` (Monday = 0) by `PyDate.weekday` via the
standard civil-calendar day count.

The CP-SAT model built through OR-Tools is modelled as a list of linear
constraints (`LinCon`) over variables identified by their string names,
exactly the string keys the Python code uses.  `model.Add(expr)` calls are
translated to `LinCon` values in source order, with every term moved to the
left-hand side (e.g. `a == b` becomes `a - b = 0`, `x <= 1 - y` becomes
`x + y <= 1`).
-/

namespace DermScheduler

/-- Python's built-in `round` on an exact rational: round to the nearest
integer, ties to the even integer (banker's rounding). -/
def pyRound (q : ℚ) : ℤ :=
  if q - ⌊q⌋ < 1/2 then ⌊q⌋
  else if 1/2 < q - ⌊q⌋ then ⌊q⌋ + 1
  else if ⌊q⌋ % 2 = 0 then ⌊q⌋ else ⌊q⌋ + 1

/-- Python's `str.startswith`, on the underlying character lists. -/
def pyStartsWith (s pre : String) : Bool :=
  pre.data.isPrefixOf s.data

/-- Python's `str.split(sep)` on the underlying character list (a single
separator character; adjacent separators produce empty parts and the empty
string yields one empty part, as in Python). -/
def splitChars (sep : Char) : List Char → List (List Char)
  | [] => [[]]
  | c :: cs =>
    match splitChars sep cs with
    | [] => [[c]]
    | h :: t => if c = sep then [] :: h :: t else (c :: h) :: t

/-- Python's `str.split(sep)` for a one-character separator. -/
def pySplit (sep : Char) (s : String) : List String :=
  (splitChars sep s.data).map fun cs => ⟨cs⟩

/-- Python's `sep.join(parts)`. -/
def joinWith (sep : String) : List String → String
  | [] => ""
  | [x] => x
  | x :: y :: xs => x ++ sep ++ joinWith sep (y :: xs)

/-- Python's `int(...)` applied to a float: truncation toward zero. -/
def pyIntTrunc (q : ℚ) : ℤ :=
  if q < 0 then -⌊-q⌋ else ⌊q⌋

/-- Python `datetime.date`. -/
structure PyDate where
  year : Nat
  month : Nat
  day : Nat
deriving DecidableEq, Repr

/-- Zero-padded decimal rendering of width 2 (for `%m` / `%d`). -/
def pad2 (n : Nat) : String :=
  if n < 10 then "0" ++ toString n else toString n

/-- Zero-padded decimal rendering of width 4 (for `%Y`). -/
def pad4 (n : Nat) : String :=
  if n < 10 then "000" ++ toString n
  else if n < 100 then "00" ++ toString n
  else if n < 1000 then "0" ++ toString n
  else toString n

/-- `d.strftime('%Y-%m-%d')`. -/
def PyDate.iso (d : PyDate) : String :=
  pad4 d.year ++ "-" ++ pad2 d.month ++ "-" ++ pad2 d.day

/-- Count of days from the civil epoch 0000-03-01 to the given date
(standard "days from civil" computation, valid for years ≥ 1). -/
def PyDate.rataDie (dt : PyDate) : Nat :=
  let y := if dt.month ≤ 2 then dt.year - 1 else dt.year
  let era := y / 400
  let yoe := y - era * 400
  let mp := if 2 < dt.month then dt.month - 3 else dt.month + 9
  let doy := (153 * mp + 2) / 5 + dt.day - 1
  let doe := yoe * 365 + yoe / 4 - yoe / 100 + doy
  era * 146097 + doe

/-- Python's `date.weekday()`: Monday = 0, ..., Sunday = 6.
Calibrated so that 1970-01-01 (rata die 719468) is a Thursday (3). -/
def PyDate.weekday (dt : PyDate) : Nat :=
  (dt.rataDie + 2) % 7

/-- Python `date` comparison is chronological, i.e. lexicographic on
(year, month, day). -/
def PyDate.lt (a b : PyDate) : Bool :=
  a.year < b.year ∨ (a.year = b.year ∧
    (a.month < b.month ∨ (a.month = b.month ∧ a.day < b.day)))

/-- `HalfDayPeriod` enum from `data_models.py`. -/
inductive HalfDayPeriod where
  | morning
  | afternoon
deriving DecidableEq, Repr

/-- The `.value` attribute of the `HalfDayPeriod` enum. -/
def HalfDayPeriod.value : HalfDayPeriod → String
  | .morning => "morning"
  | .afternoon => "afternoon"

/-- `[HalfDayPeriod.MORNING, HalfDayPeriod.AFTERNOON]` as iterated by every
constraint loop. -/
def periodList : List HalfDayPeriod := [.morning, .afternoon]

/-- `RoleCategory` enum from `data_models.py`. -/
inductive RoleCategory where
  | pathology
  | clinical
  | administrative
  | research
  | timeOff
deriving DecidableEq, Repr

/-- The `.value` attribute of the `RoleCategory` enum. -/
def RoleCategory.value : RoleCategory → String
  | .pathology => "pathology"
  | .clinical => "clinical"
  | .administrative => "administrative"
  | .research => "research"
  | .timeOff => "time_off"

/-- `list(RoleCategory)` in enum declaration order. -/
def roleCategoryList : List RoleCategory :=
  [.pathology, .clinical, .administrative, .research, .timeOff]

/-- `Role` enum from `data_models.py` (member order as declared). -/
inductive Role where
  | admin
  | imf
  | dp
  | dpd
  | dpwg
  | dped
  | research
  | education
  | osd
  | nvc
  | trip
  | vacation
  | sdo
deriving DecidableEq, Repr

/-- The `.value` attribute of the `Role` enum. -/
def Role.value : Role → String
  | .admin => "admin"
  | .imf => "imuno dermatology"
  | .dp => "dp_dermatopathology"
  | .dpd => "dpd_dermatopathology_person_of_day"
  | .dpwg => "dpwg_dermpath_working_group"
  | .dped => "dped_dermpath_education"
  | .research => "research"
  | .education => "education"
  | .osd => "osd"
  | .nvc => "nvc"
  | .trip => "trip"
  | .vacation => "vacation"
  | .sdo => "scheduled_day_off"

/-- The `category` property of `Role` (the embedded dictionary lookup). -/
def Role.category : Role → RoleCategory
  | .imf => .pathology
  | .dp => .pathology
  | .dpd => .pathology
  | .dpwg => .pathology
  | .dped => .pathology
  | .education => .pathology
  | .osd => .clinical
  | .nvc => .clinical
  | .admin => .administrative
  | .research => .research
  | .trip => .timeOff
  | .vacation => .timeOff
  | .sdo => .timeOff

/-- `list(Role)` in enum declaration order, as iterated by
`for role in cls`. -/
def roleList : List Role :=
  [.admin, .imf, .dp, .dpd, .dpwg, .dped, .research, .education,
   .osd, .nvc, .trip, .vacation, .sdo]

/-- `Role.get_roles_by_category`: all roles of the enum whose category
matches (iterates over the whole enum, not over the input's roles). -/
def Role.getRolesByCategory (c : RoleCategory) : List Role :=
  roleList.filter (fun r => r.category = c)

/-- `VacationCategory` enum from `data_models.py`. -/
inductive VacationCategory where
  | category22
  | category25
  | category30
  | category35
deriving DecidableEq, Repr

/-- The `.value` attribute of the `VacationCategory` enum (day allotment). -/
def VacationCategory.value : VacationCategory → Nat
  | .category22 => 22
  | .category25 => 25
  | .category30 => 30
  | .category35 => 35

/-- `AnnualTarget` dataclass. -/
structure AnnualTarget where
  role : Role
  target_days : ℚ
  current_days : ℚ := 0
deriving DecidableEq, Repr

/-- `Physician` dataclass: identity, FTE fractions, stored per-year day
budgets, calendar-date sets and the per-role annual-target mapping. -/
structure Physician where
  name : String
  fte_percentage : ℚ
  admin_fte_percentage : ℚ
  research_fte_percentage : ℚ
  vacation_category : VacationCategory
  total_number_of_days_per_year : ℚ
  total_number_of_pathology_days_per_year : ℚ
  total_number_of_vacation_days_per_year : ℚ
  total_number_of_trip_days_per_year : ℚ
  total_number_of_clinical_days_per_year : ℚ
  total_number_of_nvc_days_per_year : ℚ
  total_number_of_osd_days_per_year : ℚ
  total_number_of_sdo_days_per_year : ℚ
  total_number_of_admin_days_per_year : ℚ
  total_number_of_research_days_per_year : ℚ
  effective_clinical_fte_percentage : ℚ
  preferred_days_off : List PyDate
  unavailable_dates : List PyDate
  annual_targets : List (Role × AnnualTarget)
deriving DecidableEq, Repr

/-- `Physician.workdays_per_year`:
`half_days = 255 * 2 * fte_percentage; round(half_days) / 2`. -/
def Physician.workdays_per_year (p : Physician) : ℚ :=
  (pyRound (255 * 2 * p.fte_percentage) : ℚ) / 2

/-- `Physician.calculated_vacation_days`:
`round(category.value * 2 * effective_clinical_fte_percentage) / 2`. -/
def Physician.calculated_vacation_days (p : Physician) : ℚ :=
  (pyRound ((p.vacation_category.value : ℚ) * 2 *
    p.effective_clinical_fte_percentage) : ℚ) / 2

/-- `Physician.calculated_sdo_days`: 0 for `fte_percentage >= 1.0`, else
`sdo_days = (1.0 - fte) * 255; round(sdo_days * 2) / 2`. -/
def Physician.calculated_sdo_days (p : Physician) : ℚ :=
  if 1 ≤ p.fte_percentage then 0
  else (pyRound ((1 - p.fte_percentage) * 255 * 2) : ℚ) / 2

/-- `Physician.calculated_workdays_after_vacation_trip`:
`round(255*2*fte - category.value*2*effective_fte - 18*2) / 2`. -/
def Physician.calculated_workdays_after_vacation_trip (p : Physician) : ℚ :=
  (pyRound (255 * 2 * p.fte_percentage -
    (p.vacation_category.value : ℚ) * 2 * p.effective_clinical_fte_percentage -
    18 * 2) : ℚ) / 2

/-- `Physician.calculated_osd_days`: `round(workdays_after * 2 * 0.10) / 2`. -/
def Physician.calculated_osd_days (p : Physician) : ℚ :=
  (pyRound (p.calculated_workdays_after_vacation_trip * 2 * (1/10)) : ℚ) / 2

/-- `Physician.calculated_pathology_days`:
`round(workdays_after * 2 * 0.90) / 2`. -/
def Physician.calculated_pathology_days (p : Physician) : ℚ :=
  (pyRound (p.calculated_workdays_after_vacation_trip * 2 * (9/10)) : ℚ) / 2

/-- `Physician.calculated_nvc_days`: `round(osd_days * 2 * 0.10) / 2`. -/
def Physician.calculated_nvc_days (p : Physician) : ℚ :=
  (pyRound (p.calculated_osd_days * 2 * (1/10)) : ℚ) / 2

/-- `Physician.calculated_clinic_days`:
`round((osd_days - nvc_days) * 2) / 2`. -/
def Physician.calculated_clinic_days (p : Physician) : ℚ :=
  (pyRound ((p.calculated_osd_days - p.calculated_nvc_days) * 2) : ℚ) / 2

/-- `Physician.calculated_admin_days`: the source returns
`255 * 2 * admin_fte_percentage` directly - no rounding and no division
by 2 (its docstring likewise reads
"Calculate Admin days = 255 * 2 * admin_plus_research_fte_percentage"). -/
def Physician.calculated_admin_days (p : Physician) : ℚ :=
  255 * 2 * p.admin_fte_percentage

/-- `Physician.calculated_research_days`: the source returns
`255 * 2 * research_fte_percentage` directly - no rounding and no division
by 2. -/
def Physician.calculated_research_days (p : Physician) : ℚ :=
  255 * 2 * p.research_fte_percentage

/-- `CoverageRequirement` dataclass. -/
structure CoverageRequirement where
  role : Role
  min_physicians : ℤ
  max_physicians : Option ℤ := none
deriving DecidableEq, Repr

/-- `SchedulingInput` dataclass. -/
structure SchedulingInput where
  physicians : List Physician
  calendar_days : List PyDate
  roles : List Role
  coverage_requirements : List (Role × CoverageRequirement)
deriving DecidableEq, Repr

/-- `ScheduleAssignment` dataclass: note `half_day_period` is a required
field with no default. -/
structure ScheduleAssignment where
  physician : Physician
  day : PyDate
  half_day_period : HalfDayPeriod
  role : Role
deriving DecidableEq, Repr

/-- `Schedule` dataclass. -/
structure Schedule where
  assignments : List ScheduleAssignment
  input_data : SchedulingInput
deriving DecidableEq, Repr

/-- `Schedule.get_assignments_for_physician` (dataclass equality on the
whole `Physician` record). -/
def Schedule.get_assignments_for_physician (s : Schedule) (p : Physician) :
    List ScheduleAssignment :=
  s.assignments.filter (fun a => a.physician = p)

/-- `Schedule.get_assignments_for_role`. -/
def Schedule.get_assignments_for_role (s : Schedule) (r : Role) :
    List ScheduleAssignment :=
  s.assignments.filter (fun a => a.role = r)

/-- `Schedule.get_assignments_for_day`. -/
def Schedule.get_assignments_for_day (s : Schedule) (d : PyDate) :
    List ScheduleAssignment :=
  s.assignments.filter (fun a => a.day = d)

/-! ### Decision variables

`PhysicianScheduler.create_model` registers one boolean variable per
`(physician, day, role)` triple under the key
`f"{physician.name}_{day.strftime('%Y-%m-%d')}_{role.value}"`; the variable
dictionary is modelled by its list of keys.  The `ConstraintBuilder` methods
in `constraints.py` look variables up under the four-component key
`f"{physician.name}_{day_str}_{period.value}_{role.value}"`. -/

/-- The key format used by `PhysicianScheduler.create_model`
(three components: physician name, ISO date, role value). -/
def varName3 (p : Physician) (d : PyDate) (r : Role) : String :=
  p.name ++ "_" ++ d.iso ++ "_" ++ r.value

/-- The key format used by every lookup in `ConstraintBuilder` (four
components: physician name, ISO date, period value, role value). -/
def varName4 (p : Physician) (d : PyDate) (per : HalfDayPeriod) (r : Role) :
    String :=
  p.name ++ "_" ++ d.iso ++ "_" ++ per.value ++ "_" ++ r.value

/-- `PhysicianScheduler.create_model`: the decision-variable dictionary keys,
in insertion order (`for physician: for day: for role`). -/
def createModelVariables (input : SchedulingInput) : List String :=
  input.physicians.flatMap fun p =>
    input.calendar_days.flatMap fun d =>
      input.roles.map fun r => varName3 p d r

/-! ### Linear constraints -/

/-- Comparison relation of a compiled linear constraint. -/
inductive CmpRel where
  | le
  | ge
  | eq
deriving DecidableEq, Repr

/-- One `model.Add(...)` call: a linear form over named variables compared
with an integer bound.  Every `model.Add` in `constraints.py` is normalised
by moving all variable terms to the left-hand side. -/
structure LinCon where
  terms : List (String × ℤ)
  rel : CmpRel
  bound : ℤ
deriving DecidableEq, Repr

/-- Value of a linear form under an assignment of variables to integers. -/
def evalTerms (σ : String → ℤ) (ts : List (String × ℤ)) : ℤ :=
  (ts.map fun t => t.2 * σ t.1).sum

/-- Whether one compiled constraint is satisfied by an assignment. -/
def LinCon.holdsB (σ : String → ℤ) (c : LinCon) : Bool :=
  match c.rel with
  | .le => decide (evalTerms σ c.terms ≤ c.bound)
  | .ge => decide (c.bound ≤ evalTerms σ c.terms)
  | .eq => decide (evalTerms σ c.terms = c.bound)

/-- An assignment satisfies a compiled model when it satisfies every
constraint in it. -/
def satisfiesAll (σ : String → ℤ) (cs : List LinCon) : Prop :=
  ∀ c ∈ cs, c.holdsB σ = true

instance (σ : String → ℤ) (cs : List LinCon) : Decidable (satisfiesAll σ cs) :=
  List.decidableBAll _ cs

/-- The `if var_name in self.variables` filter applied to a list of
candidate keys. -/
def presentVars (vars : List String) (names : List String) : List String :=
  names.filter fun n => vars.contains n

/-! ### Constraint-compilation stages (`constraints.py`) -/

/-- `ConstraintBuilder.add_one_role_per_day_constraints`.  Per physician,
day and period: at most one non-DP role (roles whose `.value` does not start
with `"dp"`); per role category with at least one present variable, an
auxiliary boolean `..._{category}_active` linked by
`sum(category roles) <= len * active` and `sum(category roles) >= active`;
and at most one active category.  (The `dp_vars` list built by the source is
never used in a constraint.)  Lookups use the four-component keys. -/
def oneRolePerDayCons (vars : List String) (input : SchedulingInput) :
    List LinCon :=
  input.physicians.flatMap fun p =>
    input.calendar_days.flatMap fun d =>
      periodList.flatMap fun per =>
        let non_dp_roles := input.roles.filter fun r =>
          ¬ pyStartsWith r.value "dp"
        let non_dp_vars := presentVars vars
          (non_dp_roles.map fun r => varName4 p d per r)
        let nonDpCon := if non_dp_vars.isEmpty then [] else
          [⟨non_dp_vars.map fun n => (n, (1 : ℤ)), .le, 1⟩]
        let catData := roleCategoryList.map fun cat =>
          (cat, presentVars vars
            ((Role.getRolesByCategory cat).map fun r => varName4 p d per r))
        let activeVarName := fun (cat : RoleCategory) =>
          p.name ++ "_" ++ d.iso ++ "_" ++ per.value ++ "_" ++
            cat.value ++ "_active"
        let catCons := catData.flatMap fun cd =>
          if cd.2.isEmpty then [] else
            [⟨(cd.2.map fun n => (n, (1 : ℤ))) ++
                [(activeVarName cd.1, -(cd.2.length : ℤ))], .le, 0⟩,
             ⟨(cd.2.map fun n => (n, (1 : ℤ))) ++
                [(activeVarName cd.1, (-1 : ℤ))], .ge, 0⟩]
        let activeNames := catData.filterMap fun cd =>
          if cd.2.isEmpty then none else some (activeVarName cd.1)
        let catSumCon := if activeNames.isEmpty then [] else
          [⟨activeNames.map fun n => (n, (1 : ℤ)), .le, 1⟩]
        nonDpCon ++ catCons ++ catSumCon

/-- `ConstraintBuilder.add_unavailability_constraints`: for every physician
and every unavailable date that is among the calendar days, every present
role variable for each period of that date is forced to 0
(`model.Add(var == False)`). -/
def unavailabilityCons (vars : List String) (input : SchedulingInput) :
    List LinCon :=
  input.physicians.flatMap fun p =>
    p.unavailable_dates.flatMap fun ud =>
      if ud ∈ input.calendar_days then
        input.roles.flatMap fun r =>
          periodList.flatMap fun per =>
            let n := varName4 p ud per r
            if vars.contains n then [⟨[(n, (1 : ℤ))], .eq, 0⟩] else []
      else []

/-- The present SDO variables of one physician across the calendar, as
collected by `add_sdo_constraints`. -/
def sdoVarNames (vars : List String) (input : SchedulingInput)
    (p : Physician) : List String :=
  input.calendar_days.flatMap fun d =>
    periodList.filterMap fun per =>
      let n := varName4 p d per Role.sdo
      if vars.contains n then some n else none

/-- `ConstraintBuilder.add_sdo_constraints`.  For `fte_percentage >= 1.0`:
`sum(sdo_vars) == 0`.  Otherwise: `sum(sdo_vars) ==
int(total_number_of_sdo_days_per_year * 2)`, and per day/period, for every
present role other than SDO, `other <= 1 - sdo` (normalised to
`other + sdo <= 1`).  This method exists but is commented out inside
`add_all_constraints`. -/
def sdoCons (vars : List String) (input : SchedulingInput) : List LinCon :=
  input.physicians.flatMap fun p =>
    if 1 ≤ p.fte_percentage then
      let sv := sdoVarNames vars input p
      if sv.isEmpty then [] else
        [⟨sv.map fun n => (n, (1 : ℤ)), .eq, 0⟩]
    else
      let sv := sdoVarNames vars input p
      let sumCon := if sv.isEmpty then [] else
        [⟨sv.map fun n => (n, (1 : ℤ)), .eq,
          pyIntTrunc (p.total_number_of_sdo_days_per_year * 2)⟩]
      let exclCons := input.calendar_days.flatMap fun d =>
        periodList.flatMap fun per =>
          let sdoName := varName4 p d per Role.sdo
          if vars.contains sdoName then
            input.roles.flatMap fun r =>
              if r ≠ Role.sdo then
                let oName := varName4 p d per r
                if vars.contains oName then
                  [⟨[(oName, (1 : ℤ)), (sdoName, (1 : ℤ))], .le, 1⟩]
                else []
              else []
          else []
      sumCon ++ exclCons

/-- `ConstraintBuilder.add_coverage_constraints`.  Per day: IMF coverage
`>= 1`; DP coverage `>= 5` half-day units; morning DPD `== 1`; afternoon
DPD `== 1`; on weekdays (`day.weekday()` in 0..4) per physician the
afternoon DPD and DPED indicators are equated, and on Tuesday/Thursday
(weekday 1 or 3) additionally DPD and DPWG. -/
def coverageCons (vars : List String) (input : SchedulingInput) :
    List LinCon :=
  input.calendar_days.flatMap fun d =>
    let w := d.weekday
    let imfVars := presentVars vars (input.physicians.flatMap fun p =>
      periodList.map fun per => varName4 p d per Role.imf)
    let c1 := if imfVars.isEmpty then [] else
      [⟨imfVars.map fun n => (n, (1 : ℤ)), .ge, 1⟩]
    let dpVars := presentVars vars (input.physicians.flatMap fun p =>
      periodList.map fun per => varName4 p d per Role.dp)
    let c2 := if dpVars.isEmpty then [] else
      [⟨dpVars.map fun n => (n, (1 : ℤ)), .ge, 5⟩]
    let morningDpd := presentVars vars (input.physicians.map fun p =>
      varName4 p d .morning Role.dpd)
    let c3 := if morningDpd.isEmpty then [] else
      [⟨morningDpd.map fun n => (n, (1 : ℤ)), .eq, 1⟩]
    let afternoonDpd := presentVars vars (input.physicians.map fun p =>
      varName4 p d .afternoon Role.dpd)
    let c4 := if afternoonDpd.isEmpty then [] else
      [⟨afternoonDpd.map fun n => (n, (1 : ℤ)), .eq, 1⟩]
    let bundling := if w ∈ [0, 1, 2, 3, 4] then
        input.physicians.flatMap fun p =>
          let dpdN := varName4 p d .afternoon Role.dpd
          let dpedN := varName4 p d .afternoon Role.dped
          if vars.contains dpdN && vars.contains dpedN then
            [⟨[(dpdN, (1 : ℤ)), (dpedN, (-1 : ℤ))], .eq, 0⟩] ++
            (if w = 1 ∨ w = 3 then
              let dpwgN := varName4 p d .afternoon Role.dpwg
              if vars.contains dpwgN then
                [⟨[(dpdN, (1 : ℤ)), (dpwgN, (-1 : ℤ))], .eq, 0⟩]
              else []
            else [])
          else []
      else []
    c1 ++ c2 ++ c3 ++ c4 ++ bundling

/-- The present work-role variables of one physician (input roles minus
VACATION, TRIP and SDO; loop order day, period, role), as collected by
block 1 of `add_annual_target_constraints`. -/
def annualWorkVars (vars : List String) (input : SchedulingInput)
    (p : Physician) : List String :=
  let work_roles := input.roles.filter fun r =>
    r ∉ [Role.vacation, Role.trip, Role.sdo]
  presentVars vars (input.calendar_days.flatMap fun d =>
    periodList.flatMap fun per => work_roles.map fun r => varName4 p d per r)

/-- The present variables of all enum roles of one category for one
physician (loop order day, period, role), as collected by blocks 2 and 3
of `add_annual_target_constraints`. -/
def categoryRoleVars (vars : List String) (input : SchedulingInput)
    (p : Physician) (cat : RoleCategory) : List String :=
  presentVars vars (input.calendar_days.flatMap fun d =>
    periodList.flatMap fun per =>
      (Role.getRolesByCategory cat).map fun r => varName4 p d per r)

/-- Block 1 of `add_annual_target_constraints`: total work days.
`work_roles` are the input roles minus VACATION, TRIP and SDO; equality
with `int(total_number_of_days_per_year * 2)`. -/
def annualWorkBlock (vars : List String) (input : SchedulingInput)
    (p : Physician) : List LinCon :=
  let ws := annualWorkVars vars input p
  if ws.isEmpty then [] else
    [⟨ws.map fun n => (n, (1 : ℤ)), .eq,
      pyIntTrunc (p.total_number_of_days_per_year * 2)⟩]

/-- Block 2: pathology days, over `Role.get_roles_by_category(PATHOLOGY)`
(the whole enum, not just the input roles); equality with
`int(total_number_of_pathology_days_per_year * 2)`. -/
def annualPathologyBlock (vars : List String) (input : SchedulingInput)
    (p : Physician) : List LinCon :=
  let ws := categoryRoleVars vars input p .pathology
  if ws.isEmpty then [] else
    [⟨ws.map fun n => (n, (1 : ℤ)), .eq,
      pyIntTrunc (p.total_number_of_pathology_days_per_year * 2)⟩]

/-- Block 3: clinical days, over `Role.get_roles_by_category(CLINICAL)`;
equality with `int(total_number_of_clinical_days_per_year * 2)`. -/
def annualClinicalBlock (vars : List String) (input : SchedulingInput)
    (p : Physician) : List LinCon :=
  let ws := categoryRoleVars vars input p .clinical
  if ws.isEmpty then [] else
    [⟨ws.map fun n => (n, (1 : ℤ)), .eq,
      pyIntTrunc (p.total_number_of_clinical_days_per_year * 2)⟩]

/-- The present variables of one single role for one physician over the
calendar (blocks 4-9 all collect day-by-period variables of one role). -/
def singleRoleVars (vars : List String) (input : SchedulingInput)
    (p : Physician) (r : Role) : List String :=
  presentVars vars (input.calendar_days.flatMap fun d =>
    periodList.map fun per => varName4 p d per r)

/-- Block 4: OSD days, equality with `int(osd * 2)`. -/
def annualOsdBlock (vars : List String) (input : SchedulingInput)
    (p : Physician) : List LinCon :=
  let ws := singleRoleVars vars input p Role.osd
  if ws.isEmpty then [] else
    [⟨ws.map fun n => (n, (1 : ℤ)), .eq,
      pyIntTrunc (p.total_number_of_osd_days_per_year * 2)⟩]

/-- Block 5: NVC days, equality with `int(nvc * 2)`. -/
def annualNvcBlock (vars : List String) (input : SchedulingInput)
    (p : Physician) : List LinCon :=
  let ws := singleRoleVars vars input p Role.nvc
  if ws.isEmpty then [] else
    [⟨ws.map fun n => (n, (1 : ℤ)), .eq,
      pyIntTrunc (p.total_number_of_nvc_days_per_year * 2)⟩]

/-- Block 6: admin days, equality with `int(admin * 2)`. -/
def annualAdminBlock (vars : List String) (input : SchedulingInput)
    (p : Physician) : List LinCon :=
  let ws := singleRoleVars vars input p Role.admin
  if ws.isEmpty then [] else
    [⟨ws.map fun n => (n, (1 : ℤ)), .eq,
      pyIntTrunc (p.total_number_of_admin_days_per_year * 2)⟩]

/-- Block 7: SDO days, equality with `int(sdo * 2)`. -/
def annualSdoBlock (vars : List String) (input : SchedulingInput)
    (p : Physician) : List LinCon :=
  let ws := singleRoleVars vars input p Role.sdo
  if ws.isEmpty then [] else
    [⟨ws.map fun n => (n, (1 : ℤ)), .eq,
      pyIntTrunc (p.total_number_of_sdo_days_per_year * 2)⟩]

/-- Block 8: trip days - an upper bound, `sum <= int(18 * 2) = 36`. -/
def annualTripBlock (vars : List String) (input : SchedulingInput)
    (p : Physician) : List LinCon :=
  let ws := singleRoleVars vars input p Role.trip
  if ws.isEmpty then [] else
    [⟨ws.map fun n => (n, (1 : ℤ)), .le, 36⟩]

/-- Block 9: vacation days - an upper bound,
`sum <= int(total_number_of_vacation_days_per_year * 2)`. -/
def annualVacationBlock (vars : List String) (input : SchedulingInput)
    (p : Physician) : List LinCon :=
  let ws := singleRoleVars vars input p Role.vacation
  if ws.isEmpty then [] else
    [⟨ws.map fun n => (n, (1 : ℤ)), .le,
      pyIntTrunc (p.total_number_of_vacation_days_per_year * 2)⟩]

/-- `ConstraintBuilder.add_annual_target_constraints` for one physician:
the nine blocks in source order. -/
def annualTargetConsFor (vars : List String) (input : SchedulingInput)
    (p : Physician) : List LinCon :=
  annualWorkBlock vars input p ++ annualPathologyBlock vars input p ++
  annualClinicalBlock vars input p ++ annualOsdBlock vars input p ++
  annualNvcBlock vars input p ++ annualAdminBlock vars input p ++
  annualSdoBlock vars input p ++ annualTripBlock vars input p ++
  annualVacationBlock vars input p

/-- `ConstraintBuilder.add_annual_target_constraints` over all physicians. -/
def annualTargetCons (vars : List String) (input : SchedulingInput) :
    List LinCon :=
  input.physicians.flatMap fun p => annualTargetConsFor vars input p

/-- `ConstraintBuilder.add_all_constraints`: the stages actually invoked, in
source order.  `add_sdo_constraints`, `add_role_requirement_constraints`,
`add_role_preference_constraints`, `add_fairness_constraints` and
`add_temporal_spacing_constraints` are commented out in the source and
therefore contribute nothing. -/
def addAllConstraints (vars : List String) (input : SchedulingInput) :
    List LinCon :=
  oneRolePerDayCons vars input ++ unavailabilityCons vars input ++
  coverageCons vars input ++ annualTargetCons vars input

/-! ### Solution extraction (`PhysicianScheduler.extract_solution`)

The source iterates over the variable dictionary, and for every variable
whose solver value is 1 splits the key on `'_'`: the last part is matched
against a role value, the second-to-last is taken as the date text, and the
join of the rest as the physician name.  When a physician and a role are
both found the source executes `day = date.fromisoformat(date_part)` - but
`scheduler.py` never imports `date` (its imports are `time`, `typing`,
`ortools` and names from `.data_models` / `.utils`), so this expression
raises `NameError`, which the surrounding `except ValueError` does not
catch; the exception propagates out of `extract_solution`.  (Had `date`
been importable, the next line
`ScheduleAssignment(physician=..., day=..., role=...)` would raise
`TypeError`, since the dataclass requires the `half_day_period` field.)
The embedding returns `Except.error` at exactly that program point. -/

/-- The key-splitting part of the `extract_solution` loop body: returns the
matched physician, the date text, and the matched role, or `none` when the
key has fewer than three parts or no physician/role matches (such keys are
silently skipped by the source). -/
def parseVarName (input : SchedulingInput) (var_name : String) :
    Option (Physician × String × Role) :=
  let parts := pySplit '_' var_name
  if 3 ≤ parts.length then
    let role_part := parts.getLastD ""
    let date_part := parts.dropLast.getLastD ""
    let physician_name := joinWith "_" parts.dropLast.dropLast
    match input.physicians.find? fun p => p.name == physician_name,
          input.roles.find? fun r => r.value == role_part with
    | some p, some r => some (p, date_part, r)
    | _, _ => none
  else none

/-- The `extract_solution` loop over the variable keys: a key whose value
is 1 and whose parse succeeds reaches the unbound name `date` and raises
`NameError`; all other keys are skipped. -/
def extractAssignments (input : SchedulingInput) (value : String → ℤ) :
    List String → Except String (List ScheduleAssignment)
  | [] => .ok []
  | n :: rest =>
    if value n = 1 then
      match parseVarName input n with
      | some _ => .error "NameError: name date is not defined"
      | none => extractAssignments input value rest
    else extractAssignments input value rest

/-- `PhysicianScheduler.extract_solution`: build the assignment list from
the solver values over the `create_model` variables; a non-empty list
becomes a `Schedule`, an empty one yields `None`. -/
def extractSolution (input : SchedulingInput) (value : String → ℤ) :
    Except String (Option Schedule) :=
  match extractAssignments input value (createModelVariables input) with
  | .error e => .error e
  | .ok assignments =>
      .ok (if assignments.isEmpty then none else some ⟨assignments, input⟩)

/-! ### Export / summary (`utils.py`) -/

/-- Python `min(...)` over a sequence of dates: raises `ValueError` on an
empty sequence, otherwise keeps the chronologically smallest element. -/
def pyMinDates : List PyDate → Except String PyDate
  | [] => .error "ValueError: min arg is an empty sequence"
  | d :: ds => .ok (ds.foldl (fun acc x => if PyDate.lt x acc then x else acc) d)

/-- Python `max(...)` over a sequence of dates: raises `ValueError` on an
empty sequence, otherwise keeps the chronologically largest element. -/
def pyMaxDates : List PyDate → Except String PyDate
  | [] => .error "ValueError: max arg is an empty sequence"
  | d :: ds => .ok (ds.foldl (fun acc x => if PyDate.lt acc x then x else acc) d)

/-- The JSON document body built by `export_schedule_to_json` (the
`schedule_data` dictionary; the subsequent file write is I/O and carries no
further data).  Assignments are (physician name, ISO day, role value)
rows; the metadata holds the count and the ISO-formatted date range. -/
structure JsonExport where
  assignments : List (String × String × String)
  total_assignments : Nat
  date_range_start : String
  date_range_end : String
deriving DecidableEq, Repr

/-- `export_schedule_to_json`: the `schedule_data` dictionary is built
before the output file is opened, and its `date_range` entry takes
`min(a.day for a in schedule.assignments)` and the corresponding `max`, so
an empty assignment list raises `ValueError` inside the dictionary
construction. -/
def exportScheduleToJsonData (schedule : Schedule) :
    Except String JsonExport := do
  let s ← pyMinDates (schedule.assignments.map fun a => a.day)
  let e ← pyMaxDates (schedule.assignments.map fun a => a.day)
  pure { assignments := schedule.assignments.map fun a =>
           (a.physician.name, a.day.iso, a.role.value)
       , total_assignments := schedule.assignments.length
       , date_range_start := s.iso
       , date_range_end := e.iso }

/-- The summary dictionary built by `create_schedule_summary`; nested
dictionaries are modelled as association lists in iteration order. -/
structure ScheduleSummary where
  total_assignments : Nat
  date_range_start : String
  date_range_end : String
  physician_stats : List (String × Nat × List (String × Nat))
  role_stats : List (String × Nat × List (String × Nat))
  daily_coverage : List (String × Nat × List (String × Nat))
deriving DecidableEq, Repr

/-- `create_schedule_summary`: the `date_range` entry of the summary takes
`min` / `max` over the assignment days (raising `ValueError` on an empty
assignment list); the physician, role and daily-coverage statistics are
the counts of the corresponding `Schedule` filter queries. -/
def createScheduleSummary (schedule : Schedule) :
    Except String ScheduleSummary := do
  let s ← pyMinDates (schedule.assignments.map fun a => a.day)
  let e ← pyMaxDates (schedule.assignments.map fun a => a.day)
  let physician_stats := schedule.input_data.physicians.map fun p =>
    let as := schedule.get_assignments_for_physician p
    (p.name, as.length, schedule.input_data.roles.map fun r =>
      (r.value, (as.filter fun a => a.role = r).length))
  let role_stats := schedule.input_data.roles.map fun r =>
    let as := schedule.get_assignments_for_role r
    (r.value, as.length, schedule.input_data.physicians.map fun p =>
      (p.name, (as.filter fun a => a.physician = p).length))
  let daily_coverage := schedule.input_data.calendar_days.map fun d =>
    let as := schedule.get_assignments_for_day d
    (d.iso, as.length, schedule.input_data.roles.map fun r =>
      (r.value, (as.filter fun a => a.role = r).length))
  pure { total_assignments := schedule.assignments.length
       , date_range_start := s.iso
       , date_range_end := e.iso
       , physician_stats := physician_stats
       , role_stats := role_stats
       , daily_coverage := daily_coverage }

/-! ### Concrete fixtures

Physicians with stored budgets equal to their recomputed derived values
(so `validate_derived_values` would accept them), and small scheduling
inputs used to evaluate the pipeline at concrete points. -/

/-- Monday 2024-01-01. -/
def d0101 : PyDate := ⟨2024, 1, 1⟩

/-- Tuesday 2024-01-02. -/
def d0102 : PyDate := ⟨2024, 1, 2⟩

/-- A full-time physician (FTE 1.0, no admin/research FTE, category 25);
stored budgets match the derived formulas. -/
def alice : Physician :=
  { name := "alice"
  , fte_percentage := 1
  , admin_fte_percentage := 0
  , research_fte_percentage := 0
  , vacation_category := .category25
  , total_number_of_days_per_year := 212
  , total_number_of_pathology_days_per_year := 191
  , total_number_of_vacation_days_per_year := 25
  , total_number_of_trip_days_per_year := 18
  , total_number_of_clinical_days_per_year := 19
  , total_number_of_nvc_days_per_year := 2
  , total_number_of_osd_days_per_year := 21
  , total_number_of_sdo_days_per_year := 0
  , total_number_of_admin_days_per_year := 0
  , total_number_of_research_days_per_year := 0
  , effective_clinical_fte_percentage := 1
  , preferred_days_off := []
  , unavailable_dates := []
  , annual_targets := [] }

/-- `alice` marked unavailable on 2024-01-01. -/
def aliceUnavailable : Physician :=
  { alice with unavailable_dates := [d0101] }

/-- A part-time physician (FTE 0.8, no admin/research FTE, category 25);
stored budgets match the derived formulas, in particular the SDO budget is
`round((1 - 0.8) * 255 * 2) / 2 = 51.0` days. -/
def bob : Physician :=
  { name := "bob"
  , fte_percentage := 4/5
  , admin_fte_percentage := 0
  , research_fte_percentage := 0
  , vacation_category := .category25
  , total_number_of_days_per_year := 166
  , total_number_of_pathology_days_per_year := 299/2
  , total_number_of_vacation_days_per_year := 20
  , total_number_of_trip_days_per_year := 18
  , total_number_of_clinical_days_per_year := 15
  , total_number_of_nvc_days_per_year := 3/2
  , total_number_of_osd_days_per_year := 33/2
  , total_number_of_sdo_days_per_year := 51
  , total_number_of_admin_days_per_year := 0
  , total_number_of_research_days_per_year := 0
  , effective_clinical_fte_percentage := 4/5
  , preferred_days_off := []
  , unavailable_dates := []
  , annual_targets := [] }

/-- A loose coverage requirement for a role (min 0, max 5), as used by the
repository's own test inputs. -/
def looseCoverage (r : Role) : Role × CoverageRequirement :=
  (r, ⟨r, 0, some 5⟩)

/-- Input: `alice`, one calendar day, one role (ADMIN). -/
def inputOneAdmin : SchedulingInput :=
  { physicians := [alice]
  , calendar_days := [d0101]
  , roles := [Role.admin]
  , coverage_requirements := [looseCoverage Role.admin] }

/-- Input: `alice` unavailable on the only calendar day, one role. -/
def inputUnavailable : SchedulingInput :=
  { physicians := [aliceUnavailable]
  , calendar_days := [d0101]
  , roles := [Role.admin]
  , coverage_requirements := [looseCoverage Role.admin] }

/-- Input: part-time `bob`, one calendar day, SDO and ADMIN roles. -/
def inputPartTime : SchedulingInput :=
  { physicians := [bob]
  , calendar_days := [d0101]
  , roles := [Role.sdo, Role.admin]
  , coverage_requirements := [looseCoverage Role.sdo, looseCoverage Role.admin] }

/-- Input: two physicians on a Tuesday with the three bundled afternoon
roles (DPD, DPED, DPWG). -/
def inputTuesday : SchedulingInput :=
  { physicians := [alice, bob]
  , calendar_days := [d0102]
  , roles := [Role.dpd, Role.dped, Role.dpwg]
  , coverage_requirements :=
      [looseCoverage Role.dpd, looseCoverage Role.dped,
       looseCoverage Role.dpwg] }

/-- Input: part-time `bob`, one calendar day, the TRIP, VACATION and ADMIN
roles (used to exercise the annual-target stage). -/
def inputAnnual : SchedulingInput :=
  { physicians := [bob]
  , calendar_days := [d0101]
  , roles := [Role.trip, Role.vacation, Role.admin]
  , coverage_requirements :=
      [looseCoverage Role.trip, looseCoverage Role.vacation,
       looseCoverage Role.admin] }

/-- A period-aware variable dictionary for `inputAnnual` (four-component
keys for every physician, day, period and role), the shape of dictionary
the `ConstraintBuilder` lookups expect. -/
def periodVarsAnnual : List String :=
  inputAnnual.physicians.flatMap fun p =>
    inputAnnual.calendar_days.flatMap fun d =>
      periodList.flatMap fun per =>
        inputAnnual.roles.map fun r => varName4 p d per r

/-- The constant all-ones solver assignment. -/
def sigmaOne : String → ℤ := fun _ => 1

/-- The assignment that sets exactly alice's Tuesday DPD variable (the
three-component key created by `create_model`) to 1. -/
def sigmaDpdOnly : String → ℤ :=
  fun n => if n = varName3 alice d0102 Role.dpd then 1 else 0

/-- A full-time physician with one quarter admin FTE and one quarter
research FTE (effective clinical FTE `1 - 1/4 - 1/4 = 1/2`). -/
def carol : Physician :=
  { alice with
    name := "carol"
    admin_fte_percentage := 1/4
    research_fte_percentage := 1/4
    effective_clinical_fte_percentage := 1/2 }

/-- A full-time physician with admin FTE `1/1024` (a value exactly
representable in binary floating point, so the rational model and the
Python float computation agree on it). -/
def dana : Physician :=
  { alice with
    name := "dana"
    admin_fte_percentage := 1/1024
    effective_clinical_fte_percentage := 1023/1024 }

/-- Modelled from the spec: the admin day budget the specification states,
`round(255 * 2 * admin_fte) / 2` - for comparison with the source's
`calculated_admin_days`. -/
def specAdminDaysFormula (p : Physician) : ℚ :=
  (pyRound (255 * 2 * p.admin_fte_percentage) : ℚ) / 2

/-- Modelled from the spec: the research day budget the specification
states, `round(255 * 2 * research_fte) / 2` - for comparison with the
source's `calculated_research_days`. -/
def specResearchDaysFormula (p : Physician) : ℚ :=
  (pyRound (255 * 2 * p.research_fte_percentage) : ℚ) / 2

/-- A rational is an exact multiple of 0.5 (half-day granularity). -/
def isHalfDayMultiple (q : ℚ) : Prop :=
  ∃ k : ℤ, q = (k : ℚ) / 2

/-- A schedule with an empty assignment list. -/
def emptySchedule : Schedule := ⟨[], inputOneAdmin⟩

/-- A schedule with a single assignment. -/
def singletonSchedule : Schedule :=
  ⟨[⟨alice, d0101, .morning, Role.admin⟩], inputOneAdmin⟩

/-- The trip constraint the annual-target stage emits for `bob` over
`inputAnnual` with the period-aware variable dictionary. -/
def tripConLC : LinCon :=
  ⟨[(varName4 bob d0101 .morning Role.trip, 1),
    (varName4 bob d0101 .afternoon Role.trip, 1)], .le, 36⟩

/-- The vacation constraint the annual-target stage emits for `bob` over
`inputAnnual` with the period-aware variable dictionary. -/
def vacConLC : LinCon :=
  ⟨[(varName4 bob d0101 .morning Role.vacation, 1),
    (varName4 bob d0101 .afternoon Role.vacation, 1)], .le,
   pyIntTrunc (bob.total_number_of_vacation_days_per_year * 2)⟩

/-- The admin constraint the annual-target stage emits for `bob` over
`inputAnnual` with the period-aware variable dictionary. -/
def adminConLC : LinCon :=
  ⟨[(varName4 bob d0101 .morning Role.admin, 1),
    (varName4 bob d0101 .afternoon Role.admin, 1)], .eq,
   pyIntTrunc (bob.total_number_of_admin_days_per_year * 2)⟩

/-! ### Helper lemmas -/

/-- Membership in an annual-target block (`if empty then [] else [single]`)
pins down the relation, the bound and the terms of the constraint. -/
theorem mem_ifSingleton {l : List String} {rel : CmpRel} {b : ℤ} {c : LinCon}
    (h : c ∈ (if l.isEmpty then ([] : List LinCon)
      else [⟨l.map fun n => (n, (1 : ℤ)), rel, b⟩])) :
    c.rel = rel ∧ c.bound = b ∧ c.terms = l.map fun n => (n, (1 : ℤ)) := by
  split at h
  · simp at h
  · rw [List.mem_singleton] at h
    subst h
    exact ⟨rfl, rfl, rfl⟩

/-- An annual-target block over a non-empty variable list is non-empty. -/
theorem ifSingleton_ne_nil {l : List String} {rel : CmpRel} {b : ℤ}
    (h : l ≠ []) :
    (if l.isEmpty then ([] : List LinCon)
      else [⟨l.map fun n => (n, (1 : ℤ)), rel, b⟩]) ≠ [] := by
  cases l with
  | nil => exact absurd rfl h
  | cons a t => simp

/-- Every budget the domain model derives through `round(...) / 2` is an
exact multiple of 0.5; this holds for the workday, vacation,
workdays-after-vacation-trip, OSD, pathology, NVC, clinic and SDO budgets
(the admin and research budgets are the two that skip the rounding). -/
theorem rounded_budgets_are_half_day_multiples (p : Physician) :
    isHalfDayMultiple p.workdays_per_year ∧
    isHalfDayMultiple p.calculated_vacation_days ∧
    isHalfDayMultiple p.calculated_workdays_after_vacation_trip ∧
    isHalfDayMultiple p.calculated_osd_days ∧
    isHalfDayMultiple p.calculated_pathology_days ∧
    isHalfDayMultiple p.calculated_nvc_days ∧
    isHalfDayMultiple p.calculated_clinic_days ∧
    isHalfDayMultiple p.calculated_sdo_days := by
  refine ⟨⟨_, rfl⟩, ⟨_, rfl⟩, ⟨_, rfl⟩, ⟨_, rfl⟩, ⟨_, rfl⟩, ⟨_, rfl⟩,
    ⟨_, rfl⟩, ?_⟩
  by_cases h : 1 ≤ p.fte_percentage
  · exact ⟨0, by simp [Physician.calculated_sdo_days, h]⟩
  · exact ⟨pyRound ((1 - p.fte_percentage) * 255 * 2),
      by simp [Physician.calculated_sdo_days, h]⟩

/-! ### Claim theorems -/

/-- Claim C1 (code bug): the claim states that `create_model` creates one
boolean variable for every (physician, day, period, role) tuple.  The
source enumerates only physician x day x role: on a one-physician,
one-day, one-role input the variable dictionary is exactly the single
three-component key, and neither period-indexed key (the key format every
`ConstraintBuilder` lookup uses) is a variable. -/
theorem claim_C1_no_period_variable :
    createModelVariables inputOneAdmin = ["alice_2024-01-01_admin"] ∧
    varName4 alice d0101 .morning Role.admin ∉
      createModelVariables inputOneAdmin ∧
    varName4 alice d0101 .afternoon Role.admin ∉
      createModelVariables inputOneAdmin := by
  decide

/-- Claim C2 (code bug): the claim states that the compiled model forces
every role variable of an unavailable physician on that date to 0.  With
the variable dictionary `create_model` actually builds, every
four-component lookup of `add_unavailability_constraints` (and of every
other stage) misses, so `add_all_constraints` compiles the empty
constraint list: the all-ones assignment - which gives the unavailable
physician her role on the unavailable date - satisfies the whole compiled
model. -/
theorem claim_C2_unavailability_vacuous :
    aliceUnavailable.unavailable_dates = [d0101] ∧
    d0101 ∈ inputUnavailable.calendar_days ∧
    addAllConstraints (createModelVariables inputUnavailable)
      inputUnavailable = [] ∧
    satisfiesAll sigmaOne
      (addAllConstraints (createModelVariables inputUnavailable)
        inputUnavailable) ∧
    sigmaOne (varName3 aliceUnavailable d0101 Role.admin) = 1 := by
  decide

/-- Claim C3 (code bug): the claim states that the compiled model fixes
every physician's SDO sum (0 for full-time, the half-day target for
part-time) and excludes SDO from other roles per slot.
`add_sdo_constraints` is commented out inside `add_all_constraints`, and
with `create_model`'s period-less variable keys every stage lookup misses
anyway: the compiled model is empty, and the all-ones assignment - under
which part-time `bob` (target 102 half-day units) has SDO sum 1 and holds
SDO and ADMIN in the same slot - satisfies it. -/
theorem claim_C3_sdo_unconstrained :
    bob.fte_percentage < 1 ∧
    pyIntTrunc (bob.total_number_of_sdo_days_per_year * 2) = 102 ∧
    addAllConstraints (createModelVariables inputPartTime) inputPartTime
      = [] ∧
    satisfiesAll sigmaOne
      (addAllConstraints (createModelVariables inputPartTime)
        inputPartTime) ∧
    sigmaOne (varName3 bob d0101 Role.sdo) = 1 ∧
    sigmaOne (varName3 bob d0101 Role.admin) = 1 := by
  refine ⟨by norm_num [bob], by norm_num [pyIntTrunc, bob], by decide,
    by decide, rfl, rfl⟩

/-- Claim C4 (code bug): the claim states that in any solved schedule the
afternoon DPD/DPED (and on Tuesday/Thursday also DPWG) indicators of a
physician are equal.  On a Tuesday input, the compiled model is again
empty (the coverage stage's four-component lookups all miss the
three-component variable keys), so the assignment giving alice DPD but not
DPED and not DPWG satisfies every compiled constraint. -/
theorem claim_C4_bundling_vacuous :
    d0102.weekday = 1 ∧
    addAllConstraints (createModelVariables inputTuesday) inputTuesday
      = [] ∧
    satisfiesAll sigmaDpdOnly
      (addAllConstraints (createModelVariables inputTuesday)
        inputTuesday) ∧
    sigmaDpdOnly (varName3 alice d0102 Role.dpd) = 1 ∧
    sigmaDpdOnly (varName3 alice d0102 Role.dped) = 0 ∧
    sigmaDpdOnly (varName3 alice d0102 Role.dpwg) = 0 := by
  decide

/-- Claim C5 (confirmed): in the annual-target compilation stage, every
constraint the trip block emits is an upper bound `sum <= 36` over the
physician's present trip variables and every constraint the vacation block
emits is an upper bound `sum <= int(vacation_days * 2)`, never equalities,
while the seven other categories (total work, pathology, clinical, OSD,
NVC, admin, SDO) are compiled as exact equalities with their targets; the
trip and vacation blocks are non-empty whenever the corresponding
variables are present. -/
theorem claim_C5_annual_target_relations (vars : List String)
    (input : SchedulingInput) (p : Physician) :
    (∀ c ∈ annualTripBlock vars input p, c.rel = .le ∧ c.bound = 36 ∧
      c.terms = (singleRoleVars vars input p Role.trip).map
        fun n => (n, (1 : ℤ))) ∧
    (∀ c ∈ annualVacationBlock vars input p, c.rel = .le ∧
      c.bound = pyIntTrunc (p.total_number_of_vacation_days_per_year * 2) ∧
      c.terms = (singleRoleVars vars input p Role.vacation).map
        fun n => (n, (1 : ℤ))) ∧
    (∀ c ∈ annualWorkBlock vars input p, c.rel = .eq ∧
      c.bound = pyIntTrunc (p.total_number_of_days_per_year * 2) ∧
      c.terms = (annualWorkVars vars input p).map fun n => (n, (1 : ℤ))) ∧
    (∀ c ∈ annualPathologyBlock vars input p, c.rel = .eq ∧
      c.bound = pyIntTrunc (p.total_number_of_pathology_days_per_year * 2) ∧
      c.terms = (categoryRoleVars vars input p .pathology).map
        fun n => (n, (1 : ℤ))) ∧
    (∀ c ∈ annualClinicalBlock vars input p, c.rel = .eq ∧
      c.bound = pyIntTrunc (p.total_number_of_clinical_days_per_year * 2) ∧
      c.terms = (categoryRoleVars vars input p .clinical).map
        fun n => (n, (1 : ℤ))) ∧
    (∀ c ∈ annualOsdBlock vars input p, c.rel = .eq ∧
      c.bound = pyIntTrunc (p.total_number_of_osd_days_per_year * 2) ∧
      c.terms = (singleRoleVars vars input p Role.osd).map
        fun n => (n, (1 : ℤ))) ∧
    (∀ c ∈ annualNvcBlock vars input p, c.rel = .eq ∧
      c.bound = pyIntTrunc (p.total_number_of_nvc_days_per_year * 2) ∧
      c.terms = (singleRoleVars vars input p Role.nvc).map
        fun n => (n, (1 : ℤ))) ∧
    (∀ c ∈ annualAdminBlock vars input p, c.rel = .eq ∧
      c.bound = pyIntTrunc (p.total_number_of_admin_days_per_year * 2) ∧
      c.terms = (singleRoleVars vars input p Role.admin).map
        fun n => (n, (1 : ℤ))) ∧
    (∀ c ∈ annualSdoBlock vars input p, c.rel = .eq ∧
      c.bound = pyIntTrunc (p.total_number_of_sdo_days_per_year * 2) ∧
      c.terms = (singleRoleVars vars input p Role.sdo).map
        fun n => (n, (1 : ℤ))) ∧
    (singleRoleVars vars input p Role.trip ≠ [] →
      annualTripBlock vars input p ≠ []) ∧
    (singleRoleVars vars input p Role.vacation ≠ [] →
      annualVacationBlock vars input p ≠ []) := by
  refine ⟨?_, ?_, ?_, ?_, ?_, ?_, ?_, ?_, ?_, ?_, ?_⟩
  · intro c hc
    simp only [annualTripBlock] at hc
    exact mem_ifSingleton hc
  · intro c hc
    simp only [annualVacationBlock] at hc
    exact mem_ifSingleton hc
  · intro c hc
    simp only [annualWorkBlock] at hc
    exact mem_ifSingleton hc
  · intro c hc
    simp only [annualPathologyBlock] at hc
    exact mem_ifSingleton hc
  · intro c hc
    simp only [annualClinicalBlock] at hc
    exact mem_ifSingleton hc
  · intro c hc
    simp only [annualOsdBlock] at hc
    exact mem_ifSingleton hc
  · intro c hc
    simp only [annualNvcBlock] at hc
    exact mem_ifSingleton hc
  · intro c hc
    simp only [annualAdminBlock] at hc
    exact mem_ifSingleton hc
  · intro c hc
    simp only [annualSdoBlock] at hc
    exact mem_ifSingleton hc
  · intro h
    simp only [annualTripBlock]
    exact ifSingleton_ne_nil h
  · intro h
    simp only [annualVacationBlock]
    exact ifSingleton_ne_nil h

/-- Claim C5 witness: over a period-aware variable dictionary for a
one-day input, the trip block for `bob` contains the `<= 36` constraint,
the vacation block the `<= int(2 * 20) = 40` constraint, and the admin
block an equality constraint. -/
theorem claim_C5_annual_target_relations_witness :
    tripConLC ∈ annualTripBlock periodVarsAnnual inputAnnual bob ∧
    tripConLC.rel = .le ∧ tripConLC.bound = 36 ∧
    vacConLC ∈ annualVacationBlock periodVarsAnnual inputAnnual bob ∧
    vacConLC.rel = .le ∧
    vacConLC.bound =
      pyIntTrunc (bob.total_number_of_vacation_days_per_year * 2) ∧
    pyIntTrunc (bob.total_number_of_vacation_days_per_year * 2) = 40 ∧
    adminConLC ∈ annualAdminBlock periodVarsAnnual inputAnnual bob ∧
    adminConLC.rel = .eq ∧
    annualTripBlock periodVarsAnnual inputAnnual bob ≠ [] ∧
    annualVacationBlock periodVarsAnnual inputAnnual bob ≠ [] := by
  have ht : tripConLC ∈ annualTripBlock periodVarsAnnual inputAnnual bob := by
    decide
  have hv : vacConLC ∈
      annualVacationBlock periodVarsAnnual inputAnnual bob := by
    rw [show annualVacationBlock periodVarsAnnual inputAnnual bob
      = [vacConLC] from rfl]
    exact List.mem_singleton.mpr rfl
  have ha : adminConLC ∈
      annualAdminBlock periodVarsAnnual inputAnnual bob := by
    rw [show annualAdminBlock periodVarsAnnual inputAnnual bob
      = [adminConLC] from rfl]
    exact List.mem_singleton.mpr rfl
  have h5 := claim_C5_annual_target_relations periodVarsAnnual inputAnnual bob
  exact ⟨ht, (h5.1 tripConLC ht).1, (h5.1 tripConLC ht).2.1,
    hv, (h5.2.1 vacConLC hv).1, (h5.2.1 vacConLC hv).2.1,
    by norm_num [pyIntTrunc, bob],
    ha, (h5.2.2.2.2.2.2.2.1 adminConLC ha).1,
    h5.2.2.2.2.2.2.2.2.2.1 (by decide),
    h5.2.2.2.2.2.2.2.2.2.2 (by decide)⟩

/-- Claim C6 (code bug): the claim states the derived admin and research
budgets equal `round(255 * 2 * fte) / 2`.  The source's
`calculated_admin_days` and `calculated_research_days` return
`255 * 2 * fte` with no rounding and no halving: at admin FTE = research
FTE = 1/4 the source yields 127.5 where the spec formula yields 64. -/
theorem claim_C6_admin_research_budgets :
    carol.calculated_admin_days = 255/2 ∧
    specAdminDaysFormula carol = 64 ∧
    carol.calculated_admin_days ≠ specAdminDaysFormula carol ∧
    carol.calculated_research_days = 255/2 ∧
    specResearchDaysFormula carol = 64 ∧
    carol.calculated_research_days ≠ specResearchDaysFormula carol := by
  have h1 : carol.calculated_admin_days = 255/2 := by
    norm_num [Physician.calculated_admin_days, carol, alice]
  have h2 : specAdminDaysFormula carol = 64 := by
    norm_num [specAdminDaysFormula, carol, alice, pyRound]
  have h3 : carol.calculated_research_days = 255/2 := by
    norm_num [Physician.calculated_research_days, carol, alice]
  have h4 : specResearchDaysFormula carol = 64 := by
    norm_num [specResearchDaysFormula, carol, alice, pyRound]
  refine ⟨h1, h2, ?_, h3, h4, ?_⟩
  · rw [h1, h2]; norm_num
  · rw [h3, h4]; norm_num

/-- Claim C7 (code bug): the claim states every derived day budget is an
exact multiple of 0.5.  Because `calculated_admin_days` skips the
`round(...) / 2` step, at admin FTE = 1/1024 the derived admin budget is
`255/512`, which is not a multiple of 0.5 (all eight budgets that do round
are multiples of 0.5, see `rounded_budgets_are_half_day_multiples`). -/
theorem claim_C7_admin_budget_not_half_day :
    dana.calculated_admin_days = 255/512 ∧
    ¬ isHalfDayMultiple dana.calculated_admin_days := by
  have h : dana.calculated_admin_days = 255/512 := by
    norm_num [Physician.calculated_admin_days, dana, alice]
  refine ⟨h, ?_⟩
  rw [h]
  rintro ⟨k, hk⟩
  have h1 : (255 : ℚ) = 256 * (k : ℚ) := by
    field_simp at hk
    linarith
  have h2 : (255 : ℤ) = 256 * k := by exact_mod_cast h1
  omega

/-- Claim C8 (confirmed): the computed SDO day budget is exactly 0 when
`fte_percentage >= 1.0` and `round((1 - FTE) * 255 * 2) / 2` when
`fte_percentage < 1.0`. -/
theorem claim_C8_sdo_budget_formula (p : Physician) :
    (1 ≤ p.fte_percentage → p.calculated_sdo_days = 0) ∧
    (p.fte_percentage < 1 → p.calculated_sdo_days =
      (pyRound ((1 - p.fte_percentage) * 255 * 2) : ℚ) / 2) := by
  constructor
  · intro h
    simp [Physician.calculated_sdo_days, h]
  · intro h
    simp [Physician.calculated_sdo_days, not_le.mpr h]

/-- Claim C8 witness: `alice` (FTE 1.0) gets SDO budget 0 and `bob`
(FTE 0.8) gets SDO budget 51.0, matching the example in the spec. -/
theorem claim_C8_sdo_budget_formula_witness :
    ((1 : ℚ) ≤ alice.fte_percentage ∧ alice.calculated_sdo_days = 0) ∧
    (bob.fte_percentage < 1 ∧ bob.calculated_sdo_days = 51) := by
  have h1 : (1 : ℚ) ≤ alice.fte_percentage := by norm_num [alice]
  have h2 : bob.fte_percentage < 1 := by norm_num [bob]
  refine ⟨⟨h1, (claim_C8_sdo_budget_formula alice).1 h1⟩, h2, ?_⟩
  rw [(claim_C8_sdo_budget_formula bob).2 h2]
  norm_num [bob, pyRound]

/-- Claim C9 (code bug): the claim states extraction logs and skips
unparsable keys and never propagates an exception.  On a solution that
sets a parseable variable (matching physician and role) to 1,
`extract_solution` reaches `date.fromisoformat(date_part)` - but
`scheduler.py` never imports `date`, so a `NameError` is raised there and
the surrounding `except ValueError` does not catch it; the embedding
returns the corresponding error instead of a `Schedule` or `None`. -/
theorem claim_C9_extraction_raises :
    extractSolution inputOneAdmin sigmaOne =
      .error "NameError: name date is not defined" ∧
    sigmaOne (varName3 alice d0101 Role.admin) = 1 :=
  ⟨rfl, rfl⟩

/-- Claim C10 (confirmed): on a schedule with an empty assignment list
both `export_schedule_to_json` and `create_schedule_summary` raise (the
date-range metadata takes `min` and `max` over the assignment days), and
on a schedule with at least one assignment both succeed. -/
theorem claim_C10_export_needs_assignment (sched : Schedule) :
    (sched.assignments = [] →
      exportScheduleToJsonData sched =
        .error "ValueError: min arg is an empty sequence" ∧
      createScheduleSummary sched =
        .error "ValueError: min arg is an empty sequence") ∧
    (sched.assignments ≠ [] →
      (∃ v, exportScheduleToJsonData sched = .ok v) ∧
      (∃ v, createScheduleSummary sched = .ok v)) := by
  obtain ⟨as, inp⟩ := sched
  constructor
  · intro h
    simp only at h
    subst h
    exact ⟨rfl, rfl⟩
  · intro h
    match as with
    | [] => exact absurd rfl h
    | a :: rest => exact ⟨⟨_, rfl⟩, ⟨_, rfl⟩⟩

/-- Claim C10 witness: the empty schedule makes both export and summary
fail, and a one-assignment schedule makes both succeed. -/
theorem claim_C10_export_needs_assignment_witness :
    (emptySchedule.assignments = [] ∧
      exportScheduleToJsonData emptySchedule =
        .error "ValueError: min arg is an empty sequence" ∧
      createScheduleSummary emptySchedule =
        .error "ValueError: min arg is an empty sequence") ∧
    (singletonSchedule.assignments ≠ [] ∧
      (∃ v, exportScheduleToJsonData singletonSchedule = .ok v) ∧
      (∃ v, createScheduleSummary singletonSchedule = .ok v)) := by
  have he := (claim_C10_export_needs_assignment emptySchedule).1 rfl
  have hne : singletonSchedule.assignments ≠ [] := by
    simp [singletonSchedule]
  have hs := (claim_C10_export_needs_assignment singletonSchedule).2 hne
  exact ⟨⟨rfl, he.1, he.2⟩, hne, hs.1, hs.2⟩

end DermScheduler
